import Mathlib

/-!
Verification development for the CO2 billing tool
(`co2tool`: loader, cleaner, data utilities, emission processor).

The Python source is shallowly embedded: pandas `DataFrame`s become Lean
structures over `List`s of row records, Python floats become `ℚ` (all the
computations the claims exercise are exact decimal arithmetic), Python
exceptions become `Except String`, and a Python value that may be null is an
`Option`.  Each definition is translated from the function of the same name in
the repository; comments give the source file.
-/

namespace Co2Tool

/-! ## Python string primitives

Helpers modelling the Python `str` operations used by the parsers:
`str.strip`, `str.replace(c, "")`, `str.count`, `str.split`,
`str.replace(c, r, n)` and the `float()` built-in. -/

/-- Characters Python's `str.strip()` removes (whitespace, including the
non-breaking and narrow no-break spaces, which satisfy `str.isspace`). -/
def pyIsSpace (c : Char) : Bool :=
  c = ' ' || c = '\t' || c = '\n' || c = '\r' || c = '\x0b' || c = '\x0c' ||
  c = ' ' || c = ' '

/-- `str.strip()`. -/
def stripChars (l : List Char) : List Char :=
  ((l.dropWhile pyIsSpace).reverse.dropWhile pyIsSpace).reverse

/-- `str.replace(c, "")`: delete every occurrence of a character. -/
def removeChar (c : Char) (l : List Char) : List Char :=
  l.filter (fun x => x ≠ c)

/-- `str.replace(old, new)` for single characters. -/
def mapChar (old new : Char) (l : List Char) : List Char :=
  l.map (fun x => if x = old then new else x)

/-- `str.replace(c, "", n)`: delete only the first `n` occurrences. -/
def removeFirstN (c : Char) : Nat → List Char → List Char
  | _, [] => []
  | 0, l => l
  | n + 1, x :: xs => if x = c then removeFirstN c n xs else x :: removeFirstN c (n + 1) xs

/-- `str.split(c)` (Python semantics: `"a..b".split(".") = ["a", "", "b"]`). -/
def splitOnChar (c : Char) : List Char → List (List Char)
  | [] => [[]]
  | x :: xs =>
    let r := splitOnChar c xs
    if x = c then [] :: r
    else
      match r with
      | g :: gs => (x :: g) :: gs
      | [] => [[x]]

/-- Numeric value of a digit string (most significant first). -/
def digitsToNat (l : List Char) : Nat :=
  l.foldl (fun a c => 10 * a + (c.toNat - 48)) 0

/-- Syntactic phase of the Python built-in `float(s)` on a decimal literal:
optional sign, digits with at most one dot (at least one digit overall),
optional exponent part.  Returns the components
`(negative?, mantissa digits value, fraction length, decimal exponent)`,
or `none` where Python raises `ValueError`.
(Python additionally accepts digit-group underscores and the words
`inf`/`nan`; none of those shapes reaches the modelled call sites, which
only pass candidate decimal numerals.) -/
def pyFloatParse (l0 : List Char) : Option (Bool × Nat × Nat × Int) :=
  let l := stripChars l0
  let neg : Bool := match l with
    | '-' :: _ => true
    | _ => false
  let l1 : List Char := match l with
    | '-' :: r => r
    | '+' :: r => r
    | _ => l
  let d1 := l1.takeWhile Char.isDigit
  let rest := l1.drop d1.length
  -- mantissa: d1 [. d2], needing at least one digit in d1 ++ d2
  let mant : Option (List Char × List Char × List Char) :=
    match rest with
    | [] => if d1.isEmpty then none else some (d1, [], [])
    | '.' :: r2 =>
      let d2 := r2.takeWhile Char.isDigit
      let rest2 := r2.drop d2.length
      if d1.isEmpty && d2.isEmpty then none else some (d1, d2, rest2)
    | _ => some (d1, [], rest)
  match mant with
  | none => none
  | some (i, f, rest2) =>
    if i.isEmpty && f.isEmpty then none else
    match rest2 with
    | [] => some (neg, digitsToNat (i ++ f), f.length, 0)
    | e :: r3 =>
      if e = 'e' || e = 'E' then
        let esgn : Int := match r3 with
          | '-' :: _ => -1
          | _ => 1
        let r4 : List Char := match r3 with
          | '-' :: r => r
          | '+' :: r => r
          | _ => r3
        if r4.isEmpty || !(r4.all Char.isDigit) then none
        else some (neg, digitsToNat (i ++ f), f.length, esgn * (digitsToNat r4 : Int))
      else none

/-- Numeric value of the components produced by `pyFloatParse`. -/
def ratOfParts (p : Bool × Nat × Nat × Int) : ℚ :=
  (if p.1 then -1 else 1) * (p.2.1 : ℚ) / (10 : ℚ) ^ p.2.2.1 * (10 : ℚ) ^ p.2.2.2

/-- The Python built-in `float(s)` on a decimal literal, as an exact
rational (all values the repository manipulates are decimal literals, whose
`float` images we model exactly). -/
def pyFloat (l0 : List Char) : Option ℚ :=
  (pyFloatParse l0).map ratOfParts

/-! ## `co2tool.core.cleaner.try_parse_float`

Translation of `cleaner.py`, lines 5–30.  The null check `pd.isnull(val)`
is modelled by taking the input as an `Option String` (a `None`/NaN cell is
`none`). -/

/-- The regex `^\d{1,3}(,\d{3})*$` part: digit groups of 1–3 then groups of
exactly 3, separated by commas. -/
def commaGroupedInt (l : List Char) : Bool :=
  match splitOnChar ',' l with
  | [] => false
  | g :: gs =>
    (1 ≤ g.length && g.length ≤ 3) && g.all Char.isDigit &&
      gs.all (fun h => h.length = 3 && h.all Char.isDigit)

/-- The regex `^\d{1,3}(,\d{3})*(\.\d+)?$` from `try_parse_float`
(comma-grouped number with an optional single dot-decimal part). -/
def commaGroupedPattern (l : List Char) : Bool :=
  match splitOnChar '.' l with
  | [intPart] => commaGroupedInt intPart
  | [intPart, fracPart] =>
    commaGroupedInt intPart && !fracPart.isEmpty && fracPart.all Char.isDigit
  | _ => false

/-- Step 3 of `try_parse_float`: several dots, keep the last one as the
decimal separator (`"".join(parts[:-1]) + "." + parts[-1]`). -/
def keepLastDot (l : List Char) : List Char :=
  let parts := splitOnChar '.' l
  (parts.dropLast).flatten ++ '.' :: (parts.getLastD [])

/-- The separator-normalisation chain of `cleaner.try_parse_float`
(everything between the null check and the final `float(...)`). -/
def tryParseChain (l : List Char) : List Char :=
  let s := removeChar ' ' (removeChar ' ' (removeChar ' ' (stripChars l)))
  if commaGroupedPattern s then removeChar ',' s
  else if s.count ',' = 1 && s.count '.' = 0 then mapChar ',' '.' s
  else if 1 < s.count '.' then keepLastDot s
  else s

/-- `cleaner.try_parse_float` (cleaner.py, lines 5–30). -/
def try_parse_float (v : Option String) : Option ℚ :=
  match v with
  | none => none
  | some str => pyFloat (tryParseChain str.toList)

/-- `cleaner.try_parse_float` with the possibility of an exception made
explicit: the only fallible call, `float(s)`, is wrapped in
`try/except` by the source, so every control path ends in `Except.ok`. -/
def try_parse_floatE (v : Option String) : Except String (Option ℚ) :=
  match v with
  | none => .ok none
  | some str =>
    let s := tryParseChain str.toList
    -- `try: return float(s) / except Exception: return None`
    match pyFloat s with
    | some q => .ok (some q)
    | none => .ok none

/-! ## `co2tool.utils.data_utils.parse_float`

Translation of `data_utils.py`, lines 8–34: replace every comma by a dot
first, then if more than one dot remains delete all but the last one. -/

/-- The separator-normalisation chain of `data_utils.parse_float`. -/
def parseFloatChain (l : List Char) : List Char :=
  let s := removeChar ' ' (removeChar ' ' (removeChar ' ' (stripChars l)))
  let s := mapChar ',' '.' s
  let s := if 1 < s.count '.' then removeFirstN '.' (s.count '.' - 1) s else s
  removeChar ',' s

/-- `data_utils.parse_float` (data_utils.py, lines 8–34).  The `pd.isna`
guard at the top returns `None` for a null input. -/
def parse_float (v : Option String) : Option ℚ :=
  match v with
  | none => none
  | some str => pyFloat (parseFloatChain str.toList)

/-- The `parse_float` closure defined inside `loader.load_co2_config_csv`
(loader.py, lines 126–137).  Its body is the same normalisation chain as
`data_utils.parse_float`, but it has no `pd.isna` guard: a null input goes
through `str(val)` and becomes the text `"None"`, whose conversion fails
inside the surrounding `try`. -/
def co2config_parse_float (v : Option String) : Option ℚ :=
  let s0 : List Char := match v with
    | none => "None".toList
    | some s => s.toList
  pyFloat (parseFloatChain s0)

/-- Evaluation helper: once the syntactic phase of `float()` is settled by
computation, the value is the corresponding power-of-ten quotient. -/
theorem pyFloat_eval (l : List Char) (m fl : Nat)
    (h : pyFloatParse l = some (false, m, fl, 0)) :
    pyFloat l = some ((m : ℚ) / 10 ^ fl) := by
  simp [pyFloat, h, ratOfParts]

/-- C6: the numeric locale parser maps equivalent tokens written in
different separator conventions to the same value: `"1,23"` and `"1.23"`
both parse to 1.23, `"1 234,56"` and `"1,234.56"` both parse to 1234.56,
following the fixed disambiguation order (comma-grouped pattern first, then
single-comma-as-decimal, then last-dot-as-decimal). -/
theorem C6_locale_equivalence :
    try_parse_float (some "1,23") = some (123 / 100 : ℚ) ∧
    try_parse_float (some "1.23") = some (123 / 100 : ℚ) ∧
    try_parse_float (some "1 234,56") = some (123456 / 100 : ℚ) ∧
    try_parse_float (some "1,234.56") = some (123456 / 100 : ℚ) := by
  refine ⟨?_, ?_, ?_, ?_⟩
  · show pyFloat (tryParseChain "1,23".toList) = _
    rw [pyFloat_eval _ 123 2 (by decide)]; norm_num
  · show pyFloat (tryParseChain "1.23".toList) = _
    rw [pyFloat_eval _ 123 2 (by decide)]; norm_num
  · show pyFloat (tryParseChain "1 234,56".toList) = _
    rw [pyFloat_eval _ 123456 2 (by decide)]; norm_num
  · show pyFloat (tryParseChain "1,234.56".toList) = _
    rw [pyFloat_eval _ 123456 2 (by decide)]; norm_num

/-- C7: the numeric locale parser is total: no input (null, empty string,
whitespace-only, pure text) makes it raise — every control path returns
normally (`Except.ok`), and non-numeric input returns the absent value. -/
theorem C7_parse_total :
    (∀ v, try_parse_floatE v = .ok (try_parse_float v)) ∧
    try_parse_float none = none ∧
    try_parse_float (some "") = none ∧
    try_parse_float (some "   ") = none ∧
    try_parse_float (some "abc") = none := by
  refine ⟨fun v => ?_, by decide, by decide, by decide, by decide⟩
  cases v with
  | none => rfl
  | some s =>
    simp only [try_parse_floatE, try_parse_float]
    cases pyFloat (tryParseChain s.toList) <;> rfl

/-- C8 counterexample: the cleaner's parser (`cleaner.try_parse_float`) and
the reference-table loader's parser (the `parse_float` closure in
`load_co2_config_csv`) disagree on the comma-grouped token `"1,234"`:
the cleaner reads it as the thousands-grouped integer 1234, the loader
turns the comma into a decimal dot and reads 1.234. -/
theorem C8_counterexample :
    try_parse_float (some "1,234") = some (1234 : ℚ) ∧
    co2config_parse_float (some "1,234") = some (1234 / 1000 : ℚ) ∧
    try_parse_float (some "1,234") ≠ co2config_parse_float (some "1,234") := by
  have h1 : try_parse_float (some "1,234") = some ((1234 : ℚ) / 10 ^ 0) := by
    show pyFloat (tryParseChain "1,234".toList) = _
    exact pyFloat_eval _ 1234 0 (by decide)
  have h2 : co2config_parse_float (some "1,234") = some ((1234 : ℚ) / 10 ^ 3) := by
    show pyFloat (parseFloatChain "1,234".toList) = _
    exact pyFloat_eval _ 1234 3 (by decide)
  refine ⟨?_, ?_, ?_⟩
  · rw [h1]; norm_num
  · rw [h2]; norm_num
  · rw [h1, h2]
    simp only [ne_eq, Option.some.injEq]
    norm_num

/-- C8 (amended): the reference-table loader's internal parser is
behaviourally identical to `data_utils.parse_float` (same normalisation
chain; a null input fails conversion as the text `"None"` instead of being
caught by a `pd.isna` guard, with the same absent result), but it is not
behaviourally identical to the cleaner's `try_parse_float`. -/
theorem C8_loader_parser_eq_data_utils :
    ∀ v, co2config_parse_float v = parse_float v := by
  intro v
  cases v with
  | none => decide
  | some s => rfl

/-! ## `co2tool.core.processor.process_billing_with_co2`

Translation of `processor.py`, lines 7–108, over a list-of-rows table
model.  Column presence is table-level in pandas, so a billing table
carries three flags (`prix`, `facteur_emission_co2` and `emission_co2`
columns present?) next to its rows; a row stores a value for every
modelled column, meaningful only when the corresponding flag is set.
A cell of the join column may hold a non-string value (the loader reads
text, but a caller can hand any frame to the processor), which the
`astype(str)` casts at lines 31–32 coerce — `PyVal` models such a cell.
The reference table is modelled with its two canonical columns
(`numero_article`, `facteur_emission_co2`, the latter always a float as
`load_co2_config_csv` guarantees), so the `facteur_emission_co2 not in
merged.columns` fallback of lines 39–44 and the data-integrity abort of
lines 62–72 are unreachable in the model: with numeric factors the
`astype(float)` at line 63 cannot fail.  `load_co2_config_csv` also
preserves any additional reference columns ("conservation des colonnes
additionnelles", loader.py line 125), which the left join propagates into
the result; the model tracks one optional passthrough reference column by
NAME (`hasExtra`/`extraName` on the reference table, `extraCols` on a
billing frame), applying the pandas merge rule for overlapping non-key
column names (both sides get suffixed `_x`/`_y`).  The passthrough
column's per-row values influence no modelled claim and are left out; a
suffix collision with a pre-existing `_x`/`_y` name (three or more
reprocessing passes) is outside the modelled scope.

Python mutates `df_billing` and `df_co2` in place at lines 31–32 (column
assignment on the caller's frames); the model passes state explicitly, so
`process_billing_with_co2` returns the final state of both arguments next
to the result: `(billing after, co2 after, result)`.  When the billing
frame was already processed, line 28 rebinds `df_billing` to the copy
produced by `drop`, so the caller's billing frame is left untouched. -/

/-- A pandas cell in the join column: text, or a non-text value that
`astype(str)` renders. -/
inductive PyVal where
  | vstr : String → PyVal
  | vint : Int → PyVal
deriving DecidableEq

/-- `str(v)` / `astype(str)` on a join-column cell. -/
def PyVal.toStr : PyVal → String
  | .vstr s => s
  | .vint n => toString n

/-- One billing-table row (canonical columns). -/
structure BRow where
  numero_article : PyVal
  quantite : ℚ
  prix : ℚ
  facteur_emission_co2 : ℚ
  emission_co2 : ℚ
deriving DecidableEq

/-- A billing (or result) table: per-column presence flags, the names of
its passthrough columns (carried verbatim through the pipeline and
through merges, values not modelled), and its rows. -/
structure BTable where
  hasPrix : Bool
  hasFacteur : Bool
  hasEmission : Bool
  extraCols : List String
  rows : List BRow
deriving DecidableEq

/-- One CO2-reference row. -/
structure CRow where
  numero_article : PyVal
  facteur_emission_co2 : ℚ
deriving DecidableEq

/-- The CO2-reference table: the two canonical columns as rows, plus
optionally one passthrough reference column, tracked by name
(`load_co2_config_csv` preserves such columns and the join propagates
them). -/
structure CTable where
  hasExtra : Bool
  extraName : String
  rows : List CRow
deriving DecidableEq

/-- Line 32: `df_co2["numero_article"] = df_co2["numero_article"].astype(str)`. -/
def stringifyCRows (rows : List CRow) : List CRow :=
  rows.map fun e => { e with numero_article := .vstr e.numero_article.toStr }

/-- Line 31 applied to one billing row. -/
def stringifyBRow (r : BRow) : BRow :=
  { r with numero_article := .vstr r.numero_article.toStr }

/-- Line 31: `df_billing["numero_article"] = df_billing["numero_article"].astype(str)`. -/
def stringifyBRows (rows : List BRow) : List BRow :=
  rows.map stringifyBRow

/-- Reference rows whose (text) key equals `k`. -/
def matchesIn (c : List CRow) (k : String) : List CRow :=
  c.filter (fun e => e.numero_article.toStr == k)

/-- The contribution of one billing row to
`pd.merge(df_billing, df_co2, on="numero_article", how="left")` (line 35):
one output row per matching reference row, or a single row with a null
factor when nothing matches. -/
def mergeRow (c : List CRow) (r : BRow) : List (BRow × Option ℚ) :=
  match matchesIn c r.numero_article.toStr with
  | [] => [(r, none)]
  | ms => ms.map fun e => (r, some e.facteur_emission_co2)

/-- Lines 59–101 applied to one merged row: `fillna(0)` on the factor,
then the signed emission computation (sign inversion for a negative price
when the `prix` column exists, plain product otherwise). -/
def computeRow (hasPrix : Bool) (p : BRow × Option ℚ) : BRow :=
  let f := p.2.getD 0
  if hasPrix then
    let signe : ℚ := if p.1.prix < 0 then -1 else 1
    { p.1 with facteur_emission_co2 := f,
               emission_co2 := p.1.quantite * (f * signe) }
  else
    { p.1 with facteur_emission_co2 := f,
               emission_co2 := p.1.quantite * f }

/-- The row pipeline of the processor: merge (line 35), the
`filter_missing_articles` filtering on a null factor (lines 47–56), and
the emission computation (lines 59–101). -/
def processRows (c : List CRow) (fm hasPrix : Bool) (rows : List BRow) : List BRow :=
  let merged := (stringifyBRows rows).flatMap (mergeRow (stringifyCRows c))
  let kept := if fm then merged.filter (fun p => p.2.isSome) else merged
  kept.map (computeRow hasPrix)

/-- The passthrough-column names of `pd.merge(df_billing, df_co2, ...)`
(line 35): a reference passthrough column whose name the billing frame
already carries overlaps, so pandas renames the two columns with the
default suffixes (left gets `_x`, right gets `_y`); a non-overlapping
name is simply appended. -/
def mergeExtraCols (bextra : List String) (c : CTable) : List String :=
  if c.hasExtra then
    if bextra.contains c.extraName then
      (bextra.map fun x => if x = c.extraName then c.extraName ++ "_x" else x) ++
        [c.extraName ++ "_y"]
    else bextra ++ [c.extraName]
  else bextra

/-- `processor.process_billing_with_co2` (processor.py, lines 7–108),
returning `(billing after the call, co2 after the call, result)`.
When `hasFacteur` the previously computed `facteur_emission_co2` /
`emission_co2` columns are dropped from a local copy (lines 22–28), so the
caller's billing frame escapes the in-place key cast; the row contents and
passthrough columns fed to the merge are unchanged by the drop. -/
def process_billing_with_co2 (b : BTable) (c : CTable) (fm : Bool) :
    BTable × CTable × BTable :=
  let bAfter := if b.hasFacteur then b else { b with rows := stringifyBRows b.rows }
  let cAfter : CTable := ⟨c.hasExtra, c.extraName, stringifyCRows c.rows⟩
  let result : BTable :=
    { hasPrix := b.hasPrix, hasFacteur := true, hasEmission := true,
      extraCols := mergeExtraCols b.extraCols c,
      rows := processRows c.rows fm b.hasPrix b.rows }
  (bAfter, cAfter, result)

/-! ## Claims C5 and C10 — the signed emission computation -/

/-- C5: for every processed row (when the billing table has the
`prix` column), `emission_co2 = quantite * facteur_emission_co2 * sign(prix)`
with sign −1 for a negative unit price and +1 otherwise. -/
theorem C5_signed_emission (b : BTable) (c : CTable) (fm : Bool)
    (hp : b.hasPrix = true) :
    ∀ r ∈ (process_billing_with_co2 b c fm).2.2.rows,
      r.emission_co2 = r.quantite * r.facteur_emission_co2 *
        (if r.prix < 0 then (-1 : ℚ) else 1) := by
  intro r hr
  simp only [process_billing_with_co2, processRows, List.mem_map] at hr
  obtain ⟨p, _, rfl⟩ := hr
  simp only [computeRow, hp, if_true]
  split <;> ring

/-- Concrete data for the C5 scenario: quantity 10, unit price −50,
emission factor 2. -/
def bC5 : BTable := ⟨true, false, false, [], [⟨.vstr "1", 10, -50, 0, 0⟩]⟩

/-- Reference table with factor 2 for article "1". -/
def cC5 : CTable := ⟨false, "", [⟨.vstr "1", 2⟩]⟩

/-- C5 witness: on the spec's concrete input the processed row carries
`emission_co2 = -20` (not `+20`), and the signed-emission law holds there. -/
theorem C5_witness :
    bC5.hasPrix = true ∧
    ((process_billing_with_co2 bC5 cC5 true).2.2.rows.map
      (fun r => r.emission_co2)) = [(-20 : ℚ)] ∧
    (∀ r ∈ (process_billing_with_co2 bC5 cC5 true).2.2.rows,
      r.emission_co2 = r.quantite * r.facteur_emission_co2 *
        (if r.prix < 0 then (-1 : ℚ) else 1)) := by
  refine ⟨rfl, ?_, C5_signed_emission bC5 cC5 true rfl⟩
  norm_num [process_billing_with_co2, processRows, stringifyBRows,
    stringifyBRow, stringifyCRows, mergeRow, matchesIn, computeRow,
    PyVal.toStr, bC5, cC5]

/-- C10: when the billing table has no `prix` column the call still
returns a result (the `else` branch at processor.py lines 98–101), and
every output row has `emission_co2 = quantite * facteur_emission_co2`,
with no sign inversion. -/
theorem C10_no_prix_column (b : BTable) (c : CTable) (fm : Bool)
    (hp : b.hasPrix = false) :
    ∀ r ∈ (process_billing_with_co2 b c fm).2.2.rows,
      r.emission_co2 = r.quantite * r.facteur_emission_co2 := by
  intro r hr
  simp only [process_billing_with_co2, processRows, List.mem_map] at hr
  obtain ⟨p, _, rfl⟩ := hr
  simp [computeRow, hp]

/-- Billing table without a `prix` column for the C10 witness. -/
def bC10 : BTable := ⟨false, false, false, [], [⟨.vstr "1", 10, -50, 0, 0⟩]⟩

/-- C10 witness: with no `prix` column, the concrete row of the C5
scenario yields `emission_co2 = 20` (quantity 10 × factor 2, no sign
inversion), and the unsigned law holds. -/
theorem C10_witness :
    bC10.hasPrix = false ∧
    ((process_billing_with_co2 bC10 cC5 true).2.2.rows.map
      (fun r => r.emission_co2)) = [(20 : ℚ)] ∧
    (∀ r ∈ (process_billing_with_co2 bC10 cC5 true).2.2.rows,
      r.emission_co2 = r.quantite * r.facteur_emission_co2) := by
  refine ⟨rfl, ?_, C10_no_prix_column bC10 cC5 true rfl⟩
  norm_num [process_billing_with_co2, processRows, stringifyBRows,
    stringifyBRow, stringifyCRows, mergeRow, matchesIn, computeRow,
    PyVal.toStr, bC10, cC5]

/-! ## Claim C2 — mutation of the processor's inputs -/

/-- Billing table with a non-text article key (C2 counterexample data). -/
def bC2 : BTable := ⟨true, false, false, [], [⟨.vint 7, 1, 1, 0, 0⟩]⟩

/-- Reference table with a non-text article key (C2 counterexample data). -/
def cC2 : CTable := ⟨false, "", [⟨.vint 7, 2⟩]⟩

/-- C2 counterexample: the processor does mutate both the reference table
and a not-previously-processed billing table it is given — the in-place
`astype(str)` casts at processor.py lines 31–32 turn an integer article
key 7 of the caller's frames into the text "7". -/
theorem C2_counterexample :
    ((process_billing_with_co2 bC2 cC2 true).2.1.rows.map
      (fun e => e.numero_article)) ≠ cC2.rows.map (fun e => e.numero_article) ∧
    ((process_billing_with_co2 bC2 cC2 true).1.rows.map
      (fun r => r.numero_article)) ≠ bC2.rows.map (fun r => r.numero_article) := by
  decide

/-- The in-place string cast leaves a reference table with all-text keys
unchanged. -/
theorem stringifyCRows_of_str (rows : List CRow)
    (h : ∀ e ∈ rows, ∃ s, e.numero_article = PyVal.vstr s) :
    stringifyCRows rows = rows := by
  induction rows with
  | nil => rfl
  | cons e es ih =>
    obtain ⟨s, hs⟩ := h e (List.mem_cons_self e es)
    have hes := ih (fun x hx => h x (List.mem_cons_of_mem e hx))
    cases e
    simp_all [stringifyCRows, PyVal.toStr]

/-- C2 (amended): the processor returns a freshly built result table, and
the only mutation it performs on its inputs is the in-place string cast of
the article-key column: the reference table's keys are always cast, the
billing table's keys are cast exactly when it was not previously processed
(no `facteur_emission_co2` column — otherwise `drop` rebinds a copy first
and the caller's billing frame is untouched); in particular, inputs whose
keys are already text are returned unchanged. -/
theorem C2_key_cast_only (b : BTable) (c : CTable) (fm : Bool) :
    ((process_billing_with_co2 b c fm).2.1 =
      ⟨c.hasExtra, c.extraName, stringifyCRows c.rows⟩) ∧
    ((process_billing_with_co2 b c fm).1 =
      if b.hasFacteur then b else { b with rows := stringifyBRows b.rows }) ∧
    ((∀ e ∈ c.rows, ∃ s, e.numero_article = PyVal.vstr s) →
      (process_billing_with_co2 b c fm).2.1 = c) ∧
    (b.hasFacteur = true → (process_billing_with_co2 b c fm).1 = b) := by
  refine ⟨rfl, rfl, ?_, ?_⟩
  · intro h
    show (⟨c.hasExtra, c.extraName, stringifyCRows c.rows⟩ : CTable) = c
    rw [stringifyCRows_of_str c.rows h]
  · intro h
    simp [process_billing_with_co2, h]

/-- Reference table with text keys only, for the C2 witness. -/
def cC2s : CTable := ⟨false, "", [⟨.vstr "7", 2⟩]⟩

/-- C2 witness: instantiating the amended claim, a reference table whose
keys are already text is returned unchanged by the call. -/
theorem C2_witness :
    (process_billing_with_co2 bC2 cC2s true).2.1 = cC2s := by
  refine (C2_key_cast_only bC2 cC2s true).2.2.1 ?_
  intro e he
  rw [show cC2s.rows = [⟨.vstr "7", 2⟩] from rfl, List.mem_singleton] at he
  exact ⟨"7", by rw [he]⟩

/-! ## Claim C9 — idempotence of the processor -/

/-- The contribution of a single billing row to the processor's output
(merge, optional null-factor filtering, emission computation). -/
def perRow (c : List CRow) (fm hasPrix : Bool) (r : BRow) : List BRow :=
  let ps := mergeRow (stringifyCRows c) (stringifyBRow r)
  let kept := if fm then ps.filter (fun p => p.2.isSome) else ps
  kept.map (computeRow hasPrix)

/-- The column-at-a-time pipeline of `processRows` acts row by row. -/
theorem processRows_eq_flatMap (c : List CRow) (fm hasPrix : Bool)
    (rows : List BRow) :
    processRows c fm hasPrix rows = rows.flatMap (perRow c fm hasPrix) := by
  simp only [processRows, stringifyBRows]
  cases fm
  · simp only [Bool.false_eq_true, if_false, List.flatMap_map, List.map_flatMap]
    exact List.flatMap_congr fun x _ => by simp [perRow]
  · simp only [if_true, List.flatMap_map, List.map_flatMap, List.filter_flatMap]
    exact List.flatMap_congr fun x _ => by simp [perRow]

/-- The string cast does not change the text of a reference key. -/
theorem map_toStr_stringifyCRows (c : List CRow) :
    (stringifyCRows c).map (fun e => e.numero_article.toStr) =
      c.map (fun e => e.numero_article.toStr) := by
  simp only [stringifyCRows, List.map_map]
  exact List.map_congr_left fun e _ => rfl

/-- Matching distributes over the reference-key string cast. -/
theorem matchesIn_stringifyCRows (c : List CRow) (k : String) :
    matchesIn (stringifyCRows c) k = stringifyCRows (matchesIn c k) := by
  simp only [matchesIn, stringifyCRows, List.filter_map]
  exact congrArg _ (List.filter_congr fun e _ => rfl)

/-- A key that occurs nowhere in the reference table matches nothing. -/
theorem matchesIn_eq_nil (c : List CRow) (k : String)
    (h : k ∉ c.map (fun e => e.numero_article.toStr)) : matchesIn c k = [] := by
  induction c with
  | nil => rfl
  | cons e es ih =>
    simp only [List.map_cons, List.mem_cons, not_or] at h
    have he : (e.numero_article.toStr == k) = false := by
      simp only [beq_eq_false_iff_ne, ne_eq]
      exact fun hk => h.1 hk.symm
    have hes := ih h.2
    simp only [matchesIn] at hes ⊢
    simp [List.filter_cons, he, hes]

/-- With pairwise-distinct reference keys, a key matches at most one row. -/
theorem matchesIn_nodup (c : List CRow) (k : String)
    (h : (c.map (fun e => e.numero_article.toStr)).Nodup) :
    matchesIn c k = [] ∨ ∃ e, matchesIn c k = [e] := by
  induction c with
  | nil => exact .inl rfl
  | cons e es ih =>
    simp only [List.map_cons, List.nodup_cons] at h
    by_cases hk : e.numero_article.toStr = k
    · right
      refine ⟨e, ?_⟩
      have hes : matchesIn es k = [] := by
        refine matchesIn_eq_nil es k fun hm => h.1 ?_
        rw [hk]; exact hm
      simp [matchesIn, List.filter_cons, hk, matchesIn] at hes ⊢
      exact hes
    · have he : (e.numero_article.toStr == k) = false := by
        simp [beq_eq_false_iff_ne]; exact hk
      rcases ih h.2 with h0 | ⟨e1, h1⟩
      · left; simp [matchesIn, List.filter_cons, he]; simpa [matchesIn] using h0
      · right; exact ⟨e1, by simp [matchesIn, List.filter_cons, he]; simpa [matchesIn] using h1⟩

/-- The emission computation only rewrites the factor and emission
columns. -/
theorem computeRow_key (hp : Bool) (p : BRow × Option ℚ) :
    (computeRow hp p).numero_article = p.1.numero_article := by
  simp only [computeRow]
  split <;> rfl

/-- Recomputing a computed row with the same matched factor reproduces
it exactly. -/
theorem computeRow_stable (hp : Bool) (r : BRow) (f? : Option ℚ) :
    computeRow hp (computeRow hp (r, f?), f?) = computeRow hp (r, f?) := by
  cases r
  simp only [computeRow]
  split <;> rfl

/-- The string cast fixes a row whose key is already text. -/
theorem stringifyBRow_eq_self (r : BRow) (s : String)
    (h : r.numero_article = .vstr s) : stringifyBRow r = r := by
  cases r
  simp only [stringifyBRow] at *
  simp_all [PyVal.toStr]

/-- Reprocessing the row computed from `(stringifyBRow r, f?)` when the
merge again pairs it with the same `f?` reproduces the row exactly. -/
theorem perRow_replay (c : List CRow) (fm hp : Bool) (r : BRow) (f? : Option ℚ)
    (hms2 : matchesIn (stringifyCRows c) r.numero_article.toStr = [] ∧ f? = none ∨
      (∃ e, matchesIn (stringifyCRows c) r.numero_article.toStr = [e] ∧
        f? = some e.facteur_emission_co2))
    (hsome : fm = true → f?.isSome = true) :
    perRow c fm hp (computeRow hp (stringifyBRow r, f?)) =
      [computeRow hp (stringifyBRow r, f?)] := by
  have hok : (computeRow hp (stringifyBRow r, f?)).numero_article =
      PyVal.vstr r.numero_article.toStr := by
    rw [computeRow_key]; rfl
  have hos := stringifyBRow_eq_self _ _ hok
  have hts : (computeRow hp (stringifyBRow r, f?)).numero_article.toStr =
      r.numero_article.toStr := by
    rw [hok]; rfl
  rcases hms2 with ⟨hms, rfl⟩ | ⟨e, hms, rfl⟩
  · rcases fm with _ | _
    · simp only [perRow, mergeRow, hos, hts, hms]
      simp [computeRow_stable]
    · exact absurd (hsome rfl) (by simp)
  · simp only [perRow, mergeRow, hos, hts, hms]
    cases fm <;> simp [computeRow_stable]

/-- One fully processed row re-enters the pipeline as exactly itself
(distinct reference keys). -/
theorem perRow_idem (c : List CRow) (fm hp : Bool)
    (h : (c.map (fun e => e.numero_article.toStr)).Nodup) (r : BRow) :
    (perRow c fm hp r).flatMap (perRow c fm hp) = perRow c fm hp r := by
  have hC : ((stringifyCRows c).map (fun e => e.numero_article.toStr)).Nodup := by
    rw [map_toStr_stringifyCRows]; exact h
  have hkey : (stringifyBRow r).numero_article.toStr = r.numero_article.toStr := rfl
  rcases matchesIn_nodup (stringifyCRows c) r.numero_article.toStr hC with hms | ⟨e, hms⟩
  · rcases fm with _ | _
    · -- fm = false: the unmatched row is kept with a zero-filled factor
      have hrow : perRow c false hp r = [computeRow hp (stringifyBRow r, none)] := by
        simp only [perRow, mergeRow, hkey, hms]
        simp
      rw [hrow]
      simp [perRow_replay c false hp r none (.inl ⟨hms, rfl⟩) (by simp)]
    · -- fm = true: the unmatched row is dropped, nothing to reprocess
      have hrow : perRow c true hp r = [] := by
        simp only [perRow, mergeRow, hkey, hms]
        simp
      rw [hrow]
      rfl
  · -- a single reference row matches: same factor on both passes
    have hrow : perRow c fm hp r =
        [computeRow hp (stringifyBRow r, some e.facteur_emission_co2)] := by
      simp only [perRow, mergeRow, hkey, hms]
      cases fm <;> simp
    rw [hrow]
    simp [perRow_replay c fm hp r (some e.facteur_emission_co2)
      (.inr ⟨e, hms, rfl⟩) (by simp)]

/-- Billing table for the C9 counterexample. -/
def bC9 : BTable := ⟨true, false, false, [], [⟨.vstr "1", 1, 1, 0, 0⟩]⟩

/-- Reference table with a duplicated article key (two rows for "1"). -/
def cC9 : CTable := ⟨false, "", [⟨.vstr "1", 2⟩, ⟨.vstr "1", 3⟩]⟩

/-- Reference table with a passthrough column `categorie` and a single,
duplicate-free key. -/
def cC9e : CTable := ⟨true, "categorie", [⟨.vstr "1", 2⟩]⟩

/-- C9 counterexample, both failure modes.  With a duplicated reference
key, reprocessing the processor's own output does not yield the same
`emission_co2` values — the left join multiplies the rows again
(1 billing row → 2 rows → 4 rows), double-counting emissions.  And even
with pairwise-distinct keys, a passthrough reference column (which
`load_co2_config_csv` preserves) overlaps itself at the second merge, so
pandas suffixes it into `categorie_x`/`categorie_y`: the reprocessed
table is not the table of a single call. -/
theorem C9_counterexample :
    (¬ ((process_billing_with_co2
          (process_billing_with_co2 bC9 cC9 true).2.2 cC9 true).2.2.rows.map
        (fun r => r.emission_co2) =
      (process_billing_with_co2 bC9 cC9 true).2.2.rows.map
        (fun r => r.emission_co2))) ∧
    (process_billing_with_co2 bC9 cC9e true).2.2.extraCols = ["categorie"] ∧
    (process_billing_with_co2
      (process_billing_with_co2 bC9 cC9e true).2.2 cC9e true).2.2.extraCols =
      ["categorie_x", "categorie_y"] ∧
    (process_billing_with_co2
        (process_billing_with_co2 bC9 cC9e true).2.2 cC9e true).2.2.extraCols ≠
      (process_billing_with_co2 bC9 cC9e true).2.2.extraCols := by
  refine ⟨?_, by decide, by decide, by decide⟩
  intro heq
  have h1 : (process_billing_with_co2 bC9 cC9 true).2.2.rows.length = 1 + 1 := by
    decide
  have h2 : (process_billing_with_co2
      (process_billing_with_co2 bC9 cC9 true).2.2 cC9 true).2.2.rows.length =
      1 + 1 + 1 + 1 := by
    decide
  have hlen := congrArg List.length heq
  rw [List.length_map, List.length_map, h1, h2] at hlen
  exact absurd hlen (by decide)

/-- C9 (amended): the emission processor is idempotent provided the
reference table's article keys are pairwise distinct (as text) and the
reference table carries no passthrough columns beyond the article key and
the emission factor: then, with `filter_missing` held constant,
reprocessing the processor's own output returns the very same result
table — the previously computed factor and emission columns are dropped
and every row pairs with the same unique reference entry again.  Both
provisos are necessary: a duplicated reference key multiplies rows at
each left join, and a passthrough reference column is suffixed
`_x`/`_y` at the second merge, duplicating columns. -/
theorem C9_idempotent (b : BTable) (c : CTable) (fm : Bool)
    (h : (c.rows.map (fun e => e.numero_article.toStr)).Nodup)
    (hextra : c.hasExtra = false) :
    (process_billing_with_co2
      (process_billing_with_co2 b c fm).2.2 c fm).2.2 =
      (process_billing_with_co2 b c fm).2.2 := by
  have hm : ∀ x, mergeExtraCols x c = x := fun x => by
    simp [mergeExtraCols, hextra]
  show BTable.mk b.hasPrix true true
      (mergeExtraCols (mergeExtraCols b.extraCols c) c)
      (processRows c.rows fm b.hasPrix (processRows c.rows fm b.hasPrix b.rows)) =
    BTable.mk b.hasPrix true true (mergeExtraCols b.extraCols c)
      (processRows c.rows fm b.hasPrix b.rows)
  simp only [hm]
  congr 1
  rw [processRows_eq_flatMap, processRows_eq_flatMap, List.flatMap_assoc]
  exact List.flatMap_congr fun r _ => perRow_idem c.rows fm b.hasPrix h r

/-- C9 witness: idempotence instantiated on the concrete C5 scenario
tables (single-entry reference table, duplicate-free keys, no passthrough
columns). -/
theorem C9_witness :
    (process_billing_with_co2
      (process_billing_with_co2 bC5 cC5 true).2.2 cC5 true).2.2 =
      (process_billing_with_co2 bC5 cC5 true).2.2 :=
  C9_idempotent bC5 cC5 true (by decide) rfl

/-! ## `co2tool.utils.data_utils.filter_data_by_date_range`

Translation of `data_utils.py`, lines 121–168.  A record is a date-column
cell (raw text) plus an opaque payload standing for the rest of the row;
dates are encoded as `y*10000 + m*100 + d`, which orders them like the
pandas timestamps the source compares.  `pd.to_datetime(...,
errors="coerce", dayfirst=True)` is modelled for the date shapes the
system enumerates (ISO `YYYY-MM-DD` and day-first `DD/MM/YYYY`), with
anything else coercing to `NaT` (`none`); `pd.Timestamp(str)` on a bound
is modelled for ISO strings and raises otherwise.  The defaulting of an
unset bound to January 1 / December 31 of the *current* year
(`datetime.datetime.now().year`, lines 141–155) makes the function depend
on the wall clock; the model takes that year as an explicit `todayYear`
argument.  Crucially, only the string/date-object branches convert a
bound to `pd.Timestamp`; the `None` defaults stay plain `datetime.date`
objects, and comparing the `datetime64[ns]` column `DATE_TEMP` against a
`datetime.date` raises `TypeError` ("Invalid comparison") in every pandas
that supports `engine="pyarrow"` — the model keeps the two bound kinds
apart and raises at the comparison accordingly. -/

/-- One record seen by the date partitioner. -/
structure DRow where
  date_invoice : String
  payload : Nat
deriving DecidableEq

/-- Date encoding ordered like chronological order. -/
def encodeDate (y m d : Nat) : Nat := y * 10000 + m * 100 + d

/-- A non-empty all-digit chunk, as a number. -/
def asNatDigits (l : List Char) : Option Nat :=
  if !l.isEmpty && l.all Char.isDigit then some (digitsToNat l) else none

/-- ISO `YYYY-MM-DD` date parsing (used both by `pd.Timestamp` on the
bounds and by `pd.to_datetime` on the data). -/
def parseIsoDate (s : String) : Option Nat :=
  match splitOnChar '-' s.toList with
  | [y, m, d] =>
    match asNatDigits y, asNatDigits m, asNatDigits d with
    | some yn, some mn, some dn =>
      if y.length = 4 && (1 ≤ mn && mn ≤ 12) && (1 ≤ dn && dn ≤ 31) then
        some (encodeDate yn mn dn)
      else none
    | _, _, _ => none
  | _ => none

/-- `pd.to_datetime(value, errors="coerce", dayfirst=True)` on a data
cell: ISO or day-first slash-separated dates; anything else is `NaT`. -/
def pdToDatetimeDayfirst (s : String) : Option Nat :=
  match parseIsoDate s with
  | some t => some t
  | none =>
    match splitOnChar '/' s.toList with
    | [d, m, y] =>
      match asNatDigits d, asNatDigits m, asNatDigits y with
      | some dn, some mn, some yn =>
        if y.length = 4 && (1 ≤ mn && mn ≤ 12) && (1 ≤ dn && dn ≤ 31) then
          some (encodeDate yn mn dn)
        else none
      | _, _, _ => none
    | _ => none

/-- `pd.Timestamp(str)` on a bound: parses ISO text, raises otherwise. -/
def pdTimestamp (s : String) : Except String Nat :=
  match parseIsoDate s with
  | some t => .ok t
  | none => .error "ValueError: could not parse date"

/-- A resolved bound as the source leaves it just before the comparison:
a `pd.Timestamp` (a string bound parsed at lines 145/153), or a plain
`datetime.date` — the `None` defaults of lines 143/151 are never
converted to timestamps. -/
inductive PdBound where
  | ts : Nat → PdBound
  | pydate : Nat → PdBound
deriving DecidableEq

/-- `data_utils.filter_data_by_date_range` (data_utils.py lines 121–168).
Returns `(in range, out of range)`; a record whose date fails to parse
has both boundary comparisons false and lands out of range.  The mask
expression at line 162 evaluates `DATE_TEMP >= start_date` first, then
`DATE_TEMP <= end_date`; whichever of the two first compares the
`datetime64[ns]` column against a `datetime.date` bound raises
`TypeError` (pandas rejects datetime64-vs-date ordering comparisons). -/
def filter_data_by_date_range (todayYear : Nat) (hasDateCol : Bool)
    (rows : List DRow) (start_date end_date : Option String) :
    Except String (List DRow × List DRow) :=
  if !hasDateCol then .ok (rows, [])
  else
    let sd : Except String PdBound := match start_date with
      | none => .ok (.pydate (encodeDate todayYear 1 1))
      | some s =>
        match pdTimestamp s with
        | .ok t => .ok (.ts t)
        | .error e => .error e
    let ed : Except String PdBound := match end_date with
      | none => .ok (.pydate (encodeDate todayYear 12 31))
      | some s =>
        match pdTimestamp s with
        | .ok t => .ok (.ts t)
        | .error e => .error e
    match sd, ed with
    | .error e, _ => .error e
    | _, .error e => .error e
    | .ok sb, .ok eb =>
      match sb with
      | .pydate _ => .error "TypeError: Invalid comparison between datetime64 and date"
      | .ts sdt =>
        match eb with
        | .pydate _ => .error "TypeError: Invalid comparison between datetime64 and date"
        | .ts edt =>
          let mask := fun r =>
            match pdToDatetimeDayfirst r.date_invoice with
            | some t => decide (sdt ≤ t) && decide (t ≤ edt)
            | none => false
          .ok (rows.filter mask, rows.filter (fun r => !(mask r)))

/-! ## Claim C4 — unset date bounds -/

/-- Records for the C4 counterexample: a 2020 date and an unparsable
date. -/
def dC4rows : List DRow := [⟨"2020-06-15", 0⟩, ⟨"not a date", 1⟩]

/-- C4 counterexample: with both bounds unset the partition does NOT
return every record as in-range with no out-of-range set — the bounds
default to `datetime.date` objects of the current year (here 2026), the
mask comparison against the `datetime64` column raises `TypeError`, and
the call returns no partition at all. -/
theorem C4_counterexample :
    filter_data_by_date_range 2026 true dC4rows none none =
      .error "TypeError: Invalid comparison between datetime64 and date" ∧
    (filter_data_by_date_range 2026 true dC4rows none none).toOption ≠
      some (dC4rows, []) :=
  ⟨rfl, by decide⟩

/-- C4 (amended): when both bounds are unset and the date column is
present, the partitioner does not partition at all: the unset bounds
default to `datetime.date` objects of the current year (only string
bounds are converted to `pd.Timestamp`), and the very first boundary
comparison of the `datetime64` date column against such an object raises
`TypeError`, for every record set and every current year. -/
theorem C4_unset_bounds_raise_typeerror (todayYear : Nat) (rows : List DRow) :
    filter_data_by_date_range todayYear true rows none none =
      .error "TypeError: Invalid comparison between datetime64 and date" :=
  rfl

/-! ## `co2tool.core.loader.load_billing_csv_files`

Translation of `loader.py`, lines 11–89.  A source CSV is modelled after
decoding: a column-name list plus rows holding the three mapped cells
(`ID_MATERIAL`, `QUANTITY`, `AMOUNT_NET`) as raw text (the read uses
`dtype=str`; absent cells are outside the modelled scope).  A file on disk
is modelled by the outcome of reading it with each encoding: the utf-8
read either yields a table, raises `UnicodeDecodeError`, or raises some
other exception; the latin-1 read either yields a table or raises. -/

/-- One data row of a billing CSV (the three columns the mapping uses). -/
structure RawRow where
  id_material : String
  quantity : String
  amount_net : String
deriving DecidableEq

/-- A decoded billing CSV: its header names and its rows. -/
structure RawTable where
  cols : List String
  rows : List RawRow
deriving DecidableEq

/-- A row after column mapping and quantity cleaning: `quantite` has been
through `cleaner.try_parse_float`, `prix` is still the raw text. -/
structure CleanRow where
  numero_article : String
  quantite : Option ℚ
  prix : String
deriving DecidableEq

/-- `float(str(val))` succeeding on a raw text cell (the loader's
diagnostic conversion check, loader.py lines 47–52). -/
def floatConvertible (s : String) : Bool :=
  (pyFloatParse s.toList).isSome

/-- `float(str(val))` on an already-cleaned quantity cell: a parsed float
prints as a numeral and converts back; an absent value prints as the text
`"None"`, which `float` rejects. -/
def floatConvertibleOpt (q : Option ℚ) : Bool :=
  q.isSome

/-- One pass of the loader's per-column diagnostic filter (loader.py
lines 43–63) over label-carrying rows, with the pandas index semantics
made explicit:
* `problematic_mask` is a fresh boolean series of length `n = len(df)`
  with positional index `0..n-1`; `problematic_mask.iloc[idx] = True`
  writes by position using the row LABEL `idx` (labels survive earlier
  filtering), raising `IndexError` when `idx ≥ n`;
* `df[~problematic_mask]` aligns the mask's index with the frame's labels
  and raises when some frame label is missing from the mask's index;
* when no value is problematic the mask stays all-false and neither the
  filtering nor the alignment happens.
Labels start as `0..n-1` and stay distinct and increasing, so whenever
the aligned filtering does run without raising, the labels equal the
positions and a row is kept exactly when its own cell is convertible. -/
def diagPass (rows : List (Nat × CleanRow)) (good : CleanRow → Bool) :
    Except String (List (Nat × CleanRow)) :=
  let n := rows.length
  if (rows.filter (fun p => !(good p.2))).isEmpty then .ok rows
  else if rows.any (fun p => !(good p.2) && decide (n ≤ p.1)) then
    .error "IndexError: iloc assignment out of bounds"
  else if rows.any (fun p => decide (n ≤ p.1)) then
    .error "IndexingError: unalignable boolean Series"
  else .ok (rows.filter (fun p => good p.2))

/-- The source columns the billing mapping requires (loader.py lines
26–31). -/
def requiredSourceCols : List String := ["ID_MATERIAL", "QUANTITY", "AMOUNT_NET"]

/-- The per-file processing block of `load_billing_csv_files` (loader.py
lines 26–74): schema check, column mapping, `clean_quantity_column` on
`quantite` (cleaner.py lines 32–40), the per-column diagnostic filters
over `prix` then `quantite`, and the `astype(float)` conversion tests
(lines 58–63 per column, then 67–73 for both). -/
def processFileTable (t : RawTable) : Except String (List CleanRow) :=
  if !(requiredSourceCols.all fun col => t.cols.contains col) then
    .error "Colonnes requises manquantes"
  else
    let cleaned := t.rows.map fun r =>
      CleanRow.mk r.id_material (try_parse_float (some r.quantity)) r.amount_net
    match diagPass cleaned.enum (fun r => floatConvertible r.prix) with
    | .error e => .error e
    | .ok l1 =>
      if !((l1.map Prod.snd).all fun r => floatConvertible r.prix) then
        .error "Colonne prix encore non convertible"
      else
        match diagPass l1 (fun r => floatConvertibleOpt r.quantite) with
        | .error e => .error e
        | .ok l2 =>
          if !((l2.map Prod.snd).all fun r => floatConvertibleOpt r.quantite) then
            .error "Colonne quantite encore non convertible"
          else if !((l2.map Prod.snd).all fun r =>
              floatConvertible r.prix && floatConvertibleOpt r.quantite) then
            .error "Colonne non convertible en float"
          else .ok (l2.map Prod.snd)

/-- The outcome of `pd.read_csv` with a given encoding. -/
inductive ReadRes where
  | ok : RawTable → ReadRes
  | unicodeErr : ReadRes
  | otherErr : String → ReadRes
deriving DecidableEq

/-- A file handed to the batch loader: its path and what reading it with
each encoding produces. -/
structure SrcFile where
  path : String
  utf8 : ReadRes
  latin1 : Except String RawTable

/-- The `for file_path in file_paths` loop of `load_billing_csv_files`
(loader.py lines 19–79), with the control flow the file's indentation
actually produces: the whole mapping/cleaning block (lines 25–76) is
indented INSIDE the `except UnicodeDecodeError` handler, so
* a file whose utf-8 read succeeds is read and then silently discarded —
  neither processed, nor included, nor excluded;
* a file whose utf-8 read raises `UnicodeDecodeError` is re-read as
  latin-1 and fully processed; an exception raised inside this handler
  (failed latin-1 read, schema check at line 33, diagnostic passes) is
  not caught by the sibling `except Exception` clause (Python handlers
  only catch exceptions raised in the `try` suite), so it aborts the
  whole batch;
* only a non-Unicode exception raised by the utf-8 read itself (line 21)
  reaches `except Exception` and records the file as excluded. -/
def loadLoop : List SrcFile → List (List CleanRow) → List String →
    List (String × String) →
    Except String (List (List CleanRow) × List String × List (String × String))
  | [], dfs, inc, exc => .ok (dfs, inc, exc)
  | f :: rest, dfs, inc, exc =>
    match f.utf8 with
    | .ok _ => loadLoop rest dfs inc exc
    | .unicodeErr =>
      match f.latin1 with
      | .error e => .error e
      | .ok t =>
        match processFileTable t with
        | .error e => .error e
        | .ok rows => loadLoop rest (dfs ++ [rows]) (inc ++ [f.path]) exc
    | .otherErr m => loadLoop rest dfs inc (exc ++ [(f.path, m)])

/-- The report structure built at loader.py lines 83–88 (the two counts
are the lengths of these lists). -/
structure LoadReport where
  fichiers_inclus : List String
  fichiers_exclus : List (String × String)
deriving DecidableEq

/-- `loader.load_billing_csv_files` (loader.py lines 11–89): run the
per-file loop, then fail when no frame was accumulated, else concatenate. -/
def load_billing_csv_files (files : List SrcFile) :
    Except String (List CleanRow × LoadReport) :=
  match loadLoop files [] [] [] with
  | .error e => .error e
  | .ok (dfs, inc, exc) =>
    if dfs.isEmpty then .error "Aucun fichier CSV valide charge."
    else .ok (dfs.flatten, ⟨inc, exc⟩)

/-! ## Claim C1 — batch-load accounting -/

/-- A well-formed billing table (all required columns, one clean row). -/
def goodTable : RawTable :=
  ⟨["ID_MATERIAL", "QUANTITY", "AMOUNT_NET"], [⟨"123", "4", "100"⟩]⟩

/-- A valid file that decodes as utf-8 (the normal case). -/
def utf8File : SrcFile := ⟨"a.csv", .ok goodTable, .ok goodTable⟩

/-- A table missing every required column. -/
def badColsTable : RawTable := ⟨["FOO"], []⟩

/-- A latin-1 fallback file whose schema check fails. -/
def fallbackBadFile : SrcFile := ⟨"b.csv", .unicodeErr, .ok badColsTable⟩

/-- A valid latin-1 fallback file. -/
def fallbackGoodFile : SrcFile := ⟨"c.csv", .unicodeErr, .ok goodTable⟩

/-- C1 (code bug): evaluating the loader at the failing inputs.  A valid
utf-8 file is silently discarded — the loop ends with no included and no
excluded entry (`0 + 0 ≠ 1` input file) — and the batch then raises the
fatal no-valid-file error even though the file was valid; moreover a
schema failure in one (fallback) file aborts the whole batch instead of
excluding that file and continuing with the valid one. -/
theorem C1_file_accounting_bug :
    load_billing_csv_files [utf8File] = .error "Aucun fichier CSV valide charge." ∧
    loadLoop [utf8File] [] [] [] = .ok ([], [], []) ∧
    load_billing_csv_files [fallbackBadFile, fallbackGoodFile] =
      .error "Colonnes requises manquantes" :=
  ⟨rfl, rfl, rfl⟩

/-! ## Claim C3 — invariants of the combined table -/

end Co2Tool
